import Mathlib

/-
  Shallow embedding of the QuickLink URL shortener:
  - server/routes/api.js   (Express proxy in front of the Rebrandly API)
  - src/components/URLShortener.jsx   (React client)

  JavaScript strings are modelled as Lean `String`; machine-level details
  (UTF-16 units) only matter where noted.  Fallible operations return
  `Option`/`Except`.
-/

/-! ## JavaScript string primitives used by the sources -/

/-- Characters removed by JavaScript `String.prototype.trim`
    (ASCII whitespace and line terminators, plus NBSP and the BOM;
    the rarer Unicode space code points never occur in the inputs
    considered here). -/
def isJsWhitespace (c : Char) : Bool :=
  c = ' ' || c = '\t' || c = '\n' || c = '\r' ||
  c = '\x0b' || c = '\x0c' || c = '\u00A0' || c = '\uFEFF'

/-- Character-list prefix test (first argument: the candidate start). -/
def charsStartWith : List Char → List Char → Bool
  | [], _ => true
  | _ :: _, [] => false
  | p :: ps, c :: cs => p = c && charsStartWith ps cs

/-- JavaScript `s.startsWith(pat)`. -/
def jsStartsWith (s pat : String) : Bool := charsStartWith pat.data s.data

/-- JavaScript `s.trim()`. -/
def jsTrim (s : String) : String :=
  String.mk (((s.data.dropWhile isJsWhitespace).reverse.dropWhile isJsWhitespace).reverse)

/-- JavaScript `o?.x || d` on an optional string: `undefined` and the
    empty string are both falsy and fall through to the default. -/
def jsOrOpt (o : Option String) (d : String) : String :=
  match o with
  | some s => if s = "" then d else s
  | none => d

/-- JavaScript `x || null` for an optional string field: the empty
    string collapses to `null`. -/
def jsOrNull (o : Option String) : Option String :=
  match o with
  | some s => if s = "" then none else some s
  | none => none

/-! ## Model of the WHATWG `new URL(input)` constructor (no base URL)

The sources call the platform's URL parser (`new URL(string)`), which is
not repository code; we model the parts of the WHATWG algorithm that the
inputs here exercise: input stripping, scheme parsing, and — for special
schemes — a non-empty host requirement.  Host percent-encoding, IDNA and
port-range checks are outside the inputs considered and are not modelled. -/

structure URLRecord where
  /-- The scheme in lower case followed by `":"`, as in JavaScript's
      `url.protocol`. -/
  protocol : String
  /-- The parsed host (empty for non-special schemes, whose path is opaque). -/
  host : String
  /-- Unconsumed remainder (path, query, fragment), kept raw. -/
  rest : String
  deriving DecidableEq, Repr

/-- C0 controls and space, stripped from both ends of the input. -/
def isC0OrSpace (c : Char) : Bool := c.val ≤ 32

/-- ASCII tab and newline are removed anywhere in the input. -/
def isTabOrNewline (c : Char) : Bool := c = '\t' || c = '\n' || c = '\r'

def urlPreprocess (s : String) : List Char :=
  (((s.data.dropWhile isC0OrSpace).reverse.dropWhile isC0OrSpace).reverse).filter
    (fun c => !isTabOrNewline c)

def isSchemeChar (c : Char) : Bool :=
  c.isAlpha || c.isDigit || c = '+' || c = '-' || c = '.'

/-- Scan the remaining scheme characters up to `':'`. -/
def splitSchemeAux : List Char → List Char → Option (List Char × List Char)
  | [], _ => none
  | c :: rest, acc =>
    if c = ':' then some (acc.reverse, rest)
    else if isSchemeChar c then splitSchemeAux rest (c :: acc)
    else none

/-- Split `scheme ":" remainder`; the first character must be an ASCII
    letter, later ones alphanumeric or `+`/`-`/`.` (WHATWG scheme state). -/
def splitScheme : List Char → Option (List Char × List Char)
  | [] => none
  | c :: rest => if c.isAlpha then splitSchemeAux rest [c] else none

def specialSchemes : List String := ["ftp", "file", "http", "https", "ws", "wss"]

def isHostDelim (c : Char) : Bool := c = '/' || c = '\\' || c = '?' || c = '#'

/-- Forbidden host code points (the subset that can still occur after
    splitting at the host delimiters and the port colon). -/
def forbiddenHostChar (c : Char) : Bool :=
  c = ' ' || c = '<' || c = '>' || c = '@' || c = '[' || c = ']' ||
  c = '^' || c = '|' || c = '%' || c.val < 32

/-- Authority parsing for special schemes: skip any run of slashes,
    take the host/port up to a delimiter; the host must be non-empty. -/
def parseSpecialAuthority (afterColon : List Char) : Option (String × List Char) :=
  let afterSlashes := afterColon.dropWhile (fun c => c = '/' || c = '\\')
  let hostport := afterSlashes.takeWhile (fun c => !isHostDelim c)
  let rest := afterSlashes.dropWhile (fun c => !isHostDelim c)
  let host := hostport.takeWhile (fun c => c ≠ ':')
  let port := (hostport.dropWhile (fun c => c ≠ ':')).drop 1
  if host = [] then none
  else if host.any forbiddenHostChar then none
  else if !port.all Char.isDigit then none
  else some (String.mk (host.map Char.toLower), rest)

/-- Model of `new URL(s)` with no base: `none` when the constructor
    throws, `some` record otherwise. -/
def parseURL (s : String) : Option URLRecord :=
  match splitScheme (urlPreprocess s) with
  | none => none
  | some (schemeChars, afterColon) =>
    let scheme := String.mk (schemeChars.map Char.toLower)
    if specialSchemes.contains scheme then
      if scheme = "file" then
        some { protocol := scheme ++ ":", host := "", rest := String.mk afterColon }
      else
        match parseSpecialAuthority afterColon with
        | some (host, rest) =>
          some { protocol := scheme ++ ":", host := host, rest := String.mk rest }
        | none => none
    else
      some { protocol := scheme ++ ":", host := "", rest := String.mk afterColon }

/-! ## server/routes/api.js — validators -/

namespace Api

/-- `isValidUrl` (api.js line 9): `try { new URL(string); return true }
    catch { return false }` — any parseable URL is accepted, with no
    check on the scheme. -/
def isValidUrl (s : String) : Bool := (parseURL s).isSome

/-- Character class of the slug regex `/^[a-zA-Z0-9_-]+$/`. -/
def isSlugChar (c : Char) : Bool :=
  ('a' ≤ c && c ≤ 'z') || ('A' ≤ c && c ≤ 'Z') || ('0' ≤ c && c ≤ '9') ||
  c = '_' || c = '-'

/-- `isValidSlug` (api.js line 19): the empty string is falsy, so
    `if (!slug) return true`; otherwise the regex and the length bounds
    must hold.  (JavaScript `length` counts UTF-16 units, but whenever
    the regex passes the string is ASCII, where the two counts agree.) -/
def isValidSlug (slug : String) : Bool :=
  if slug = "" then true
  else slug.data.all isSlugChar && 3 ≤ slug.length && slug.length ≤ 50

/-! ### POST /api/shorten and GET /api/test -/

/-- Failure of an outbound axios call, as the catch blocks see it:
    either an HTTP error response (with the provider's `errors` array —
    each element's optional `message` field), a timeout (axios code
    `ECONNABORTED`), or any other transport failure. -/
inductive ProviderFailure where
  | httpError (status : Nat) (errorMessages : List (Option String))
  | timeout
  | networkError
  deriving DecidableEq, Repr

/-- JavaScript `error.response?.status`: `undefined` unless the provider
    answered with an HTTP error. -/
def failureStatus (e : ProviderFailure) : Option Nat :=
  match e with
  | .httpError status _ => some status
  | _ => none

/-- JavaScript `error.response.data?.errors?.[0]?.message`. -/
def firstErrorMessage (e : ProviderFailure) : Option String :=
  match e with
  | .httpError _ errorMessages => errorMessages.head?.bind id
  | _ => none

/-- An error body `{ error, code }` together with the local HTTP status
    it is sent with. -/
structure ErrorBody where
  status : Nat
  error : String
  code : String
  deriving DecidableEq, Repr

/-- The catch block of `router.post('/shorten')` (api.js lines 95-126):
    the chain of `error.response?.status` checks followed by the
    `ECONNABORTED` check and the default 500. -/
def shortenErrorResponse (e : ProviderFailure) : ErrorBody :=
  if failureStatus e = some 403 then
    { status := 403, error := "Invalid API key or quota exceeded", code := "API_KEY_ERROR" }
  else if failureStatus e = some 422 then
    { status := 422,
      error := jsOrOpt (firstErrorMessage e) "Invalid URL or custom slug already exists",
      code := "VALIDATION_ERROR" }
  else if failureStatus e = some 429 then
    { status := 429, error := "Rate limit exceeded. Please try again later.", code := "RATE_LIMIT" }
  else if e = .timeout then
    { status := 408, error := "Request timeout. Please try again.", code := "TIMEOUT" }
  else
    { status := 500, error := "Failed to shorten URL. Please try again.", code := "INTERNAL_ERROR" }

/-- Request body of `POST /api/shorten`; absent JSON fields are `none`. -/
structure ShortenRequestBody where
  url : Option String
  customSlug : Option String
  deriving DecidableEq, Repr

/-- Outcome of the single `axios.post` to the provider. -/
inductive ProviderOutcome where
  | ok (shortUrl : String) (id : String) (slashtag : Option String) (createdAt : String)
  | fail (e : ProviderFailure)
  deriving DecidableEq, Repr

/-- The payload sent to the provider (`rebrandlyData`, api.js lines 55-63);
    the fixed `domain` field is omitted as a constant. -/
structure RebrandlyData where
  destination : String
  slashtag : Option String
  deriving DecidableEq, Repr

/-- Response of the shorten route: the success JSON or an error body. -/
inductive ShortenResponse where
  | success (shortUrl originalUrl id : String) (customSlug : Option String) (createdAt : String)
  | failure (body : ErrorBody)
  deriving DecidableEq, Repr

/-- Result of one handler run, recording how often and with which
    payload the provider was contacted. -/
structure ShortenResult where
  providerCalls : Nat
  sentRequest : Option RebrandlyData
  response : ShortenResponse
  deriving DecidableEq, Repr

/-- `if (customSlug && !isValidSlug(customSlug.trim()))` (api.js line 47). -/
def slugRejected (customSlug : Option String) : Bool :=
  match customSlug with
  | some s => if s = "" then false else !isValidSlug (jsTrim s)
  | none => false

/-- `if (customSlug && customSlug.trim()) rebrandlyData.slashtag = customSlug.trim()`
    (api.js lines 61-63). -/
def slugForwarded (customSlug : Option String) : Option String :=
  match customSlug with
  | some s => if s = "" then none else if jsTrim s = "" then none else some (jsTrim s)
  | none => none

/-- `router.post('/shorten')` (api.js lines 28-127).  The handler makes
    at most a single `await axios.post`; `provider` is the outcome that
    one call would have.  Validation errors return before the call. -/
def shortenHandler (body : ShortenRequestBody) (provider : ProviderOutcome) : ShortenResult :=
  match body.url with
  | none =>
    { providerCalls := 0, sentRequest := none,
      response := .failure { status := 400, error := "URL is required", code := "MISSING_URL" } }
  | some u =>
    if u = "" ∨ jsTrim u = "" then
      { providerCalls := 0, sentRequest := none,
        response := .failure { status := 400, error := "URL is required", code := "MISSING_URL" } }
    else if !isValidUrl (jsTrim u) then
      { providerCalls := 0, sentRequest := none,
        response := .failure { status := 400, error := "Please enter a valid URL", code := "INVALID_URL" } }
    else if slugRejected body.customSlug then
      { providerCalls := 0, sentRequest := none,
        response := .failure
          { status := 400,
            error := "Custom slug must be 3-50 characters and contain only letters, numbers, hyphens, and underscores",
            code := "INVALID_SLUG" } }
    else
      { providerCalls := 1,
        sentRequest := some { destination := jsTrim u, slashtag := slugForwarded body.customSlug },
        response :=
          match provider with
          | .ok shortUrl id slashtag createdAt =>
            .success shortUrl (jsTrim u) id (jsOrNull slashtag) createdAt
          | .fail e => .failure (shortenErrorResponse e) }

/-- Error body of `router.get('/test')` (api.js lines 153-162): always
    local status 500, `success:false`, the code chosen by the ternary on
    `error.response?.status === 403`, raw failure kept in `details`. -/
structure TestFailureBody where
  status : Nat
  success : Bool
  error : String
  code : String
  details : ProviderFailure
  deriving DecidableEq, Repr

def testErrorResponse (e : ProviderFailure) : TestFailureBody :=
  { status := 500, success := false, error := "API key test failed",
    code := if failureStatus e = some 403 then "INVALID_API_KEY" else "TEST_FAILED",
    details := e }

/-- Observation: the `code` field of a response, if it is an error. -/
def codeOf (r : ShortenResponse) : Option String :=
  match r with
  | .failure b => some b.code
  | .success .. => none

/-- Observation: whether a response is one of the three synchronous
    input-validation rejections. -/
def isInputValidationError (r : ShortenResponse) : Bool :=
  match r with
  | .failure b => b.code == "MISSING_URL" || b.code == "INVALID_URL" || b.code == "INVALID_SLUG"
  | .success .. => false

end Api

/-! ## src/components/URLShortener.jsx — client -/

namespace Client

/-- `isValidUrl` (URLShortener.jsx line 49): parse and additionally
    require `url.protocol === 'http:' || url.protocol === 'https:'`. -/
def isValidUrl (s : String) : Bool :=
  match parseURL s with
  | some u => u.protocol == "http:" || u.protocol == "https:"
  | none => false

/-- The scheme normalization in `shortenUrl` (lines 64-69): prepend
    `https://` unless the trimmed input matches `/^https?:\/\//`. -/
def normalizeUrl (t : String) : String :=
  if jsStartsWith t "http://" || jsStartsWith t "https://" then t else "https://" ++ t

/-- One history record (`newEntry`, lines 102-109).  `id` is the value
    of `Date.now()` (milliseconds since the epoch) at creation. -/
structure HistoryEntry where
  id : Nat
  originalUrl : String
  shortUrl : String
  customSlug : Option String
  createdAt : String
  rebrandlyId : String
  deriving DecidableEq, Repr

/-- Construction of `newEntry` on a successful shorten: the id is
    `Date.now()`, and `data.customSlug || null` collapses an empty
    slashtag to `null`. -/
def mkHistoryEntry (nowMs : Nat) (fullUrl shortUrl : String)
    (dataCustomSlug : Option String) (nowIso dataId : String) : HistoryEntry :=
  { id := nowMs, originalUrl := fullUrl, shortUrl := shortUrl,
    customSlug := jsOrNull dataCustomSlug, createdAt := nowIso, rebrandlyId := dataId }

/-- `setUrlHistory(prev => [newEntry, ...prev.slice(0, 9)])` (line 111). -/
def addToHistory (e : HistoryEntry) (prev : List HistoryEntry) : List HistoryEntry :=
  e :: prev.take 9

/-- Sequential recording of several entries, oldest first. -/
def recordAll (es : List HistoryEntry) (l : List HistoryEntry) : List HistoryEntry :=
  es.foldl (fun acc e => addToHistory e acc) l

/-- `deleteFromHistory` (lines 162-168): filter by id. -/
def deleteFromHistory (id : Nat) (l : List HistoryEntry) : List HistoryEntry :=
  l.filter (fun item => item.id ≠ id)

/-- `clearAllHistory` (lines 170-173). -/
def clearAllHistory (_l : List HistoryEntry) : List HistoryEntry := []

/-- The credential badge (`apiStatus` state, line 13). -/
inductive ApiStatus where
  | connected
  | error
  | unknown
  deriving DecidableEq, Repr

/-- The view state driving submission (the other `useState` cells —
    result text, copy feedback, error text — do not influence whether a
    submission can be issued and are projected away). -/
structure ViewState where
  url : String
  customSlug : String
  isLoading : Bool
  apiStatus : ApiStatus
  deriving DecidableEq, Repr

/-- Whether a call to `shortenUrl` reaches the `fetch` (lines 58-81):
    the trimmed url must be non-empty and, after scheme normalization,
    pass the client validator.  `shortenUrl` itself never consults
    `apiStatus`. -/
def shortenUrlFetches (s : ViewState) : Bool :=
  let t := jsTrim s.url
  if t = "" then false else isValidUrl (normalizeUrl t)

/-- The shorten button's `disabled` attribute (line 338):
    `isLoading || apiStatus === 'error'`. -/
def buttonDisabled (s : ViewState) : Bool :=
  s.isLoading || s.apiStatus == ApiStatus.error

/-- A click submission: the button must be enabled and `shortenUrl`
    must reach its `fetch`. -/
def clickSubmits (s : ViewState) : Bool :=
  !buttonDisabled s && shortenUrlFetches s

/-- `handleKeyPress` (lines 175-179): `e.key === 'Enter' && !isLoading`
    guards the call to `shortenUrl`; the badge is not consulted. -/
def enterKeySubmits (s : ViewState) (key : String) : Bool :=
  (key == "Enter" && !s.isLoading) && shortenUrlFetches s

/-- Initial component state (lines 6-13). -/
def init : ViewState :=
  { url := "", customSlug := "", isLoading := false, apiStatus := ApiStatus.unknown }

/-- The events that mutate the projected view state: typing in the two
    inputs (disabled while loading), the credential probe resolving,
    submission starting (via either path), and the submission settling. -/
inductive Step : ViewState → ViewState → Prop where
  | typeUrl (s : ViewState) (v : String) (h : s.isLoading = false) :
      Step s { s with url := v }
  | typeSlug (s : ViewState) (v : String) (h : s.isLoading = false) :
      Step s { s with customSlug := v }
  | probeOk (s : ViewState) : Step s { s with apiStatus := ApiStatus.connected }
  | probeErr (s : ViewState) : Step s { s with apiStatus := ApiStatus.error }
  | beginSubmitClick (s : ViewState) (h : clickSubmits s = true) :
      Step s { s with isLoading := true }
  | beginSubmitEnter (s : ViewState) (h : enterKeySubmits s "Enter" = true) :
      Step s { s with isLoading := true }
  | settle (s : ViewState) (h : s.isLoading = true) :
      Step s { s with isLoading := false }

/-- States reachable from the initial state. -/
def Reachable (s : ViewState) : Prop := Relation.ReflTransGen Step init s

end Client

/-! ## Model of `JSON.parse`

The history-loading effect calls the platform's `JSON.parse`, again not
repository code.  We model it at the syntax level: a recursive-descent
parser of the JSON grammar (RFC 8259).  String and number tokens are
kept as their raw lexemes — the claims only concern parse success and
the shape of the parsed value, never numeric values or escape decoding. -/

inductive Json where
  | null
  | bool (b : Bool)
  | num (lexeme : String)
  | str (lexeme : String)
  | arr (elements : List Json)
  | obj (members : List (String × Json))
  deriving Repr

/-- JSON insignificant whitespace. -/
def isJsonWs (c : Char) : Bool := c = ' ' || c = '\t' || c = '\n' || c = '\r'

def jsonSkipWs (cs : List Char) : List Char := cs.dropWhile isJsonWs

def isJsonHexDigit (c : Char) : Bool :=
  c.isDigit || ('a' ≤ c && c ≤ 'f') || ('A' ≤ c && c ≤ 'F')

/-- Scan a string token after the opening quote: valid escapes only,
    no raw control characters; the lexeme is kept undecoded. -/
def parseStringTail : List Char → List Char → Option (String × List Char)
  | [], _ => none
  | c :: rest, acc =>
    if c = '"' then some (String.mk acc.reverse, rest)
    else if c = '\\' then
      match rest with
      | [] => none
      | e :: rest2 =>
        if e = '"' ∨ e = '\\' ∨ e = '/' ∨ e = 'b' ∨ e = 'f' ∨ e = 'n' ∨ e = 'r' ∨ e = 't' then
          parseStringTail rest2 (e :: c :: acc)
        else if e = 'u' then
          match rest2 with
          | h1 :: h2 :: h3 :: h4 :: rest3 =>
            if isJsonHexDigit h1 && isJsonHexDigit h2 && isJsonHexDigit h3 && isJsonHexDigit h4 then
              parseStringTail rest3 (h4 :: h3 :: h2 :: h1 :: 'u' :: c :: acc)
            else none
          | _ => none
        else none
    else if c.val < 32 then none
    else parseStringTail rest (c :: acc)

/-- Scan a number token: optional sign, integer part without leading
    zeros, optional fraction and exponent. -/
def parseNumberLexeme (cs : List Char) : Option (List Char × List Char) :=
  let signAndRest : List Char × List Char :=
    match cs with
    | '-' :: r => (['-'], r)
    | _ => ([], cs)
  let sign := signAndRest.1
  let cs1 := signAndRest.2
  match cs1 with
  | [] => none
  | d :: _ =>
    if !d.isDigit then none
    else
      let ip := cs1.takeWhile Char.isDigit
      let r1 := cs1.dropWhile Char.isDigit
      if 2 ≤ ip.length ∧ ip.head? = some '0' then none
      else
        let fracRes : Option (List Char × List Char) :=
          match r1 with
          | '.' :: r2 =>
            let fd := r2.takeWhile Char.isDigit
            if fd = [] then none else some ('.' :: fd, r2.dropWhile Char.isDigit)
          | _ => some ([], r1)
        match fracRes with
        | none => none
        | some (fp, r3) =>
          let expRes : Option (List Char × List Char) :=
            match r3 with
            | e :: r4 =>
              if e = 'e' ∨ e = 'E' then
                let esAndRest : List Char × List Char :=
                  match r4 with
                  | '+' :: r6 => (['+'], r6)
                  | '-' :: r6 => (['-'], r6)
                  | _ => ([], r4)
                let ed := esAndRest.2.takeWhile Char.isDigit
                if ed = [] then none
                else some (e :: (esAndRest.1 ++ ed), esAndRest.2.dropWhile Char.isDigit)
              else some ([], r3)
            | [] => some ([], r3)
          match expRes with
          | none => none
          | some (ep, r6) => some (sign ++ ip ++ fp ++ ep, r6)

/-- Match an expected literal tail (`ull`, `rue`, `alse`). -/
def takeLiteral : List Char → List Char → Option (List Char)
  | [], cs => some cs
  | l :: ls, c :: cs => if c = l then takeLiteral ls cs else none
  | _ :: _, [] => none

/-- Intermediate parse result: a single value, the elements of an array
    (after its first element), or the members of an object. -/
inductive JsonPart where
  | value (j : Json) (rest : List Char)
  | elements (js : List Json) (rest : List Char)
  | members (fs : List (String × Json)) (rest : List Char)

/-- The recursive descent, fuelled to make the recursion structural:
    mode 0 parses one value, mode 1 a `]`-terminated element list,
    mode 2 a `}`-terminated member list.  Along every path at least one
    input character is consumed per two units of fuel, so the fuel
    supplied by `Json.parse` never runs out on valid input. -/
def parseCore : Nat → Nat → List Char → Option JsonPart
  | 0, _, _ => none
  | fuel + 1, mode, cs =>
    if mode = 0 then
      match jsonSkipWs cs with
      | [] => none
      | c :: rest =>
        if c = 'n' then (takeLiteral ['u', 'l', 'l'] rest).map (fun r => .value Json.null r)
        else if c = 't' then (takeLiteral ['r', 'u', 'e'] rest).map (fun r => .value (Json.bool true) r)
        else if c = 'f' then (takeLiteral ['a', 'l', 's', 'e'] rest).map (fun r => .value (Json.bool false) r)
        else if c = '"' then
          match parseStringTail rest [] with
          | some (lex, r) => some (.value (Json.str lex) r)
          | none => none
        else if c = '[' then
          match jsonSkipWs rest with
          | ']' :: r2 => some (.value (Json.arr []) r2)
          | _ =>
            match parseCore fuel 1 rest with
            | some (.elements js r) => some (.value (Json.arr js) r)
            | _ => none
        else if c = '{' then
          match jsonSkipWs rest with
          | '}' :: r2 => some (.value (Json.obj []) r2)
          | _ =>
            match parseCore fuel 2 rest with
            | some (.members fs r) => some (.value (Json.obj fs) r)
            | _ => none
        else if c = '-' ∨ c.isDigit then
          match parseNumberLexeme (c :: rest) with
          | some (lex, r) => some (.value (Json.num (String.mk lex)) r)
          | none => none
        else none
    else if mode = 1 then
      match parseCore fuel 0 cs with
      | some (.value j r) =>
        match jsonSkipWs r with
        | ',' :: r2 =>
          match parseCore fuel 1 r2 with
          | some (.elements js r3) => some (.elements (j :: js) r3)
          | _ => none
        | ']' :: r2 => some (.elements [j] r2)
        | _ => none
      | _ => none
    else
      match jsonSkipWs cs with
      | '"' :: r =>
        match parseStringTail r [] with
        | some (k, r2) =>
          match jsonSkipWs r2 with
          | ':' :: r3 =>
            match parseCore fuel 0 r3 with
            | some (.value j r4) =>
              match jsonSkipWs r4 with
              | ',' :: r5 =>
                match parseCore fuel 2 r5 with
                | some (.members fs r6) => some (.members ((k, j) :: fs) r6)
                | _ => none
              | '}' :: r5 => some (.members [(k, j)] r5)
              | _ => none
            | _ => none
          | _ => none
        | none => none
      | _ => none

/-- Model of `JSON.parse(s)`: `none` when it throws (a SyntaxError),
    `some` value otherwise; trailing garbage is rejected. -/
def Json.parse (s : String) : Option Json :=
  match parseCore (2 * s.length + 4) 0 s.data with
  | some (JsonPart.value j rest) => if jsonSkipWs rest = [] then some j else none
  | _ => none

namespace Client

/-- The history-loading effect on mount (URLShortener.jsx lines 16-18):
    `JSON.parse(localStorage.getItem('urlHistory') || '[]')`.  `stored`
    is the persisted value (`none` when the key is absent); JavaScript
    `||` also replaces an empty stored string by `'[]'`.  `Except.error`
    models the SyntaxError thrown by `JSON.parse`, which the effect does
    not catch. -/
def loadSavedHistory (stored : Option String) : Except Unit Json :=
  match Json.parse (jsOrOpt stored "[]") with
  | some j => Except.ok j
  | none => Except.error ()

end Client

/-! ## Shared lemmas -/

/-- Every error body the shorten catch block can produce carries one of
    the five provider-failure codes. -/
theorem shortenErrorResponse_code_cases (e : Api.ProviderFailure) :
    (Api.shortenErrorResponse e).code = "API_KEY_ERROR"
    ∨ (Api.shortenErrorResponse e).code = "VALIDATION_ERROR"
    ∨ (Api.shortenErrorResponse e).code = "RATE_LIMIT"
    ∨ (Api.shortenErrorResponse e).code = "TIMEOUT"
    ∨ (Api.shortenErrorResponse e).code = "INTERNAL_ERROR" := by
  unfold Api.shortenErrorResponse
  split_ifs <;> simp

/-- No provider-failure code is one of the input-validation codes. -/
theorem isInputValidationError_shortenError (e : Api.ProviderFailure) :
    Api.isInputValidationError (.failure (Api.shortenErrorResponse e)) = false := by
  rcases shortenErrorResponse_code_cases e with h | h | h | h | h <;>
    simp [Api.isInputValidationError, h]

/-- The forwarded slashtag is the trimmed slug, or absent when the trim
    is empty. -/
theorem slugForwarded_eq (cs : String) :
    Api.slugForwarded (some cs) = (if jsTrim cs = "" then none else some (jsTrim cs)) := by
  by_cases h : cs = "" <;> simp [Api.slugForwarded, h]
  subst h
  simp [jsTrim]

/-- The slug character class, spelt out as ranges. -/
theorem isSlugChar_iff (c : Char) :
    Api.isSlugChar c = true ↔
      (('a' ≤ c ∧ c ≤ 'z') ∨ ('A' ≤ c ∧ c ≤ 'Z') ∨ ('0' ≤ c ∧ c ≤ '9')
        ∨ c = '_' ∨ c = '-') := by
  simp [Api.isSlugChar, Bool.or_eq_true, Bool.and_eq_true, decide_eq_true_eq, or_assoc]

/-! ## Claims -/


/-- C5: slug validation accepts exactly the empty/absent slug and the
    non-empty strings over `[A-Za-z0-9_-]` of length 3 to 50 inclusive;
    length 2, length 51, and strings containing a space or a dot are
    rejected. -/
theorem c5_slug_validation :
    (∀ s : String, Api.isValidSlug s = true ↔
      (s = "" ∨
        ((∀ c ∈ s.data,
            ('a' ≤ c ∧ c ≤ 'z') ∨ ('A' ≤ c ∧ c ≤ 'Z') ∨ ('0' ≤ c ∧ c ≤ '9')
            ∨ c = '_' ∨ c = '-')
          ∧ 3 ≤ s.length ∧ s.length ≤ 50)))
    ∧ Api.isValidSlug "ab" = false
    ∧ Api.isValidSlug (String.mk (List.replicate 51 'a')) = false
    ∧ Api.isValidSlug "my slug" = false
    ∧ Api.isValidSlug "my.slug" = false := by
  refine ⟨?_, by decide, by decide, by decide, by decide⟩
  intro s
  unfold Api.isValidSlug
  by_cases h : s = ""
  · simp [h]
  · simp [h, List.all_eq_true, isSlugChar_iff, and_assoc]

/-- C1, counterexample: `ftp://example.com` parses with scheme `ftp:`;
    the server-side validator accepts it, and the shorten handler does
    not reject it with `INVALID_URL` — it contacts the provider.  This
    refutes the claim that URL validation succeeds only for http/https
    and that other schemes are rejected before the provider call. -/
theorem c1_counterexample :
    Api.isValidUrl "ftp://example.com" = true
    ∧ (parseURL "ftp://example.com").map URLRecord.protocol = some "ftp:"
    ∧ (Api.shortenHandler ⟨some "ftp://example.com", none⟩
        (.fail .timeout)).providerCalls = 1
    ∧ Api.codeOf (Api.shortenHandler ⟨some "ftp://example.com", none⟩
        (.fail .timeout)).response ≠ some "INVALID_URL" := by
  refine ⟨by decide, by decide, by decide, by decide⟩

/-- C1, amended: only the client-side validator restricts the scheme to
    http/https; the server-side validator used by the proxy accepts any
    string that parses as a URL, so a shorten request whose url parses
    under another scheme (such as `ftp:`) is not rejected with
    `INVALID_URL` but forwarded to the provider. -/
theorem c1_amended_validation :
    (∀ s : String, Api.isValidUrl s = true ↔ (parseURL s).isSome)
    ∧ (∀ s : String, Client.isValidUrl s = true ↔
        ∃ u, parseURL s = some u ∧ (u.protocol = "http:" ∨ u.protocol = "https:"))
    ∧ (∀ provider : Api.ProviderOutcome,
        (Api.shortenHandler ⟨some "ftp://example.com", none⟩ provider).providerCalls = 1) := by
  refine ⟨fun s => by simp [Api.isValidUrl], fun s => ?_, fun provider => rfl⟩
  unfold Client.isValidUrl
  cases h : parseURL s with
  | none => simp
  | some u => simp [h]

/-- C2: the shorten proxy maps each provider failure to exactly one
    local error: 403 to 403/`API_KEY_ERROR`, 422 to 422/`VALIDATION_ERROR`
    with the provider's first reported error message when one is present
    (JavaScript `||`: a present-but-empty message counts as absent) and
    otherwise the generic text, 429 to 429/`RATE_LIMIT`, a timeout to
    408/`TIMEOUT`, and every other failure to 500/`INTERNAL_ERROR`. -/
theorem c2_provider_error_mapping :
    (∀ msgs, Api.shortenErrorResponse (.httpError 403 msgs)
        = ⟨403, "Invalid API key or quota exceeded", "API_KEY_ERROR"⟩)
    ∧ (∀ (m : String) msgs, m ≠ "" →
        Api.shortenErrorResponse (.httpError 422 (some m :: msgs))
          = ⟨422, m, "VALIDATION_ERROR"⟩)
    ∧ (∀ msgs, Api.firstErrorMessage (.httpError 422 msgs) = none →
        Api.shortenErrorResponse (.httpError 422 msgs)
          = ⟨422, "Invalid URL or custom slug already exists", "VALIDATION_ERROR"⟩)
    ∧ (∀ msgs, Api.shortenErrorResponse (.httpError 429 msgs)
        = ⟨429, "Rate limit exceeded. Please try again later.", "RATE_LIMIT"⟩)
    ∧ Api.shortenErrorResponse .timeout
        = ⟨408, "Request timeout. Please try again.", "TIMEOUT"⟩
    ∧ (∀ status msgs, status ≠ 403 → status ≠ 422 → status ≠ 429 →
        Api.shortenErrorResponse (.httpError status msgs)
          = ⟨500, "Failed to shorten URL. Please try again.", "INTERNAL_ERROR"⟩)
    ∧ Api.shortenErrorResponse .networkError
        = ⟨500, "Failed to shorten URL. Please try again.", "INTERNAL_ERROR"⟩ := by
  refine ⟨fun msgs => rfl, ?_, ?_, fun msgs => rfl, rfl, ?_, rfl⟩
  · intro m msgs hm
    simp [Api.shortenErrorResponse, Api.failureStatus, Api.firstErrorMessage, jsOrOpt, hm]
  · intro msgs hnone
    simp [Api.shortenErrorResponse, Api.failureStatus, hnone, jsOrOpt]
  · intro status msgs h1 h2 h3
    simp [Api.shortenErrorResponse, Api.failureStatus, h1, h2, h3]

/-- Witness for C2 at concrete failures, including the spec's own
    example `errors:[{message:"slashtag already exists"}]`. -/
theorem c2_witness :
    Api.shortenErrorResponse (.httpError 422 [some "slashtag already exists"])
        = ⟨422, "slashtag already exists", "VALIDATION_ERROR"⟩
    ∧ Api.shortenErrorResponse (.httpError 422 [])
        = ⟨422, "Invalid URL or custom slug already exists", "VALIDATION_ERROR"⟩
    ∧ Api.shortenErrorResponse (.httpError 503 [])
        = ⟨500, "Failed to shorten URL. Please try again.", "INTERNAL_ERROR"⟩ :=
  ⟨c2_provider_error_mapping.2.1 "slashtag already exists" [] (by decide),
   c2_provider_error_mapping.2.2.1 [] rfl,
   c2_provider_error_mapping.2.2.2.2.2.1 503 [] (by decide) (by decide) (by decide)⟩

/-- C3: the history store keeps at most 10 entries, newest first:
    one recording step caps the length at 10, and recording 11 entries
    sequentially leaves exactly the 10 most recent, newest first, the
    oldest evicted. -/
theorem c3_history_capacity :
    (∀ (e : Client.HistoryEntry) (l : List Client.HistoryEntry),
        (Client.addToHistory e l).length ≤ 10)
    ∧ (∀ e1 e2 e3 e4 e5 e6 e7 e8 e9 e10 e11 : Client.HistoryEntry,
        Client.recordAll [e1, e2, e3, e4, e5, e6, e7, e8, e9, e10, e11] []
          = [e11, e10, e9, e8, e7, e6, e5, e4, e3, e2]) := by
  constructor
  · intro e l
    simp only [Client.addToHistory, List.length_cons, List.length_take]
    omega
  · intro e1 e2 e3 e4 e5 e6 e7 e8 e9 e10 e11
    rfl

/-- C4, counterexample: the load effect does not tolerate malformed or
    non-list persisted data.  A persisted string that is not JSON makes
    `JSON.parse` throw (the effect has no try/catch), and persisted JSON
    that is not a list is returned as-is rather than as an empty list.
    This refutes the claim that load always returns a list and never
    raises. -/
theorem c4_counterexample :
    Client.loadSavedHistory (some "oops") = Except.error ()
    ∧ Client.loadSavedHistory (some "5") = Except.ok (Json.num "5") :=
  ⟨rfl, rfl⟩

/-- C4, amended: load parses the persisted string (defaulting to `[]`
    when the key is absent or the stored string empty): absent or empty
    persisted data yields the empty list, a persisted string that is not
    valid JSON raises instead of yielding the empty list, and any valid
    JSON value is returned unchanged, whether or not it is a list. -/
theorem c4_amended_load :
    Client.loadSavedHistory none = Except.ok (Json.arr [])
    ∧ Client.loadSavedHistory (some "") = Except.ok (Json.arr [])
    ∧ (∀ s : String, s ≠ "" → Json.parse s = none →
        Client.loadSavedHistory (some s) = Except.error ())
    ∧ (∀ (s : String) (j : Json), s ≠ "" → Json.parse s = some j →
        Client.loadSavedHistory (some s) = Except.ok j) := by
  refine ⟨rfl, rfl, ?_, ?_⟩
  · intro s hs hp
    simp [Client.loadSavedHistory, jsOrOpt, hs, hp]
  · intro s j hs hp
    simp [Client.loadSavedHistory, jsOrOpt, hs, hp]

/-- Witness for C4 (amended) at concrete persisted values. -/
theorem c4_witness :
    Client.loadSavedHistory (some "nonsense") = Except.error ()
    ∧ Client.loadSavedHistory (some "[]") = Except.ok (Json.arr []) :=
  ⟨c4_amended_load.2.2.1 "nonsense" (by decide) rfl,
   c4_amended_load.2.2.2 "[]" (Json.arr []) (by decide) rfl⟩

/-- C6: every run of the shorten handler performs at most one provider
    request — none exactly when the response is one of the synchronous
    input-validation rejections (`MISSING_URL`, `INVALID_URL`,
    `INVALID_SLUG`), one otherwise; and the number of provider calls
    does not depend on the provider's outcome (in particular a timeout
    is a single attempt, never retried). -/
theorem c6_single_provider_call :
    ∀ (body : Api.ShortenRequestBody) (provider : Api.ProviderOutcome),
      (Api.shortenHandler body provider).providerCalls
          = (if Api.isInputValidationError (Api.shortenHandler body provider).response
              then 0 else 1)
      ∧ (Api.shortenHandler body provider).providerCalls ≤ 1
      ∧ (Api.shortenHandler body (.fail .timeout)).providerCalls
          = (Api.shortenHandler body provider).providerCalls := by
  intro body provider
  obtain ⟨u?, cs⟩ := body
  cases u? with
  | none => exact ⟨rfl, Nat.zero_le 1, rfl⟩
  | some u =>
    simp only [Api.shortenHandler]
    by_cases h1 : (u = "" ∨ jsTrim u = "")
    · simp only [if_pos h1]
      exact ⟨rfl, Nat.zero_le 1, trivial⟩
    · simp only [if_neg h1]
      by_cases h2 : (!Api.isValidUrl (jsTrim u)) = true
      · simp only [if_pos h2]
        exact ⟨rfl, Nat.zero_le 1, trivial⟩
      · simp only [if_neg h2]
        by_cases h3 : Api.slugRejected cs = true
        · simp only [if_pos h3]
          exact ⟨rfl, Nat.zero_le 1, trivial⟩
        · simp only [if_neg h3]
          refine ⟨?_, Nat.le_refl 1, trivial⟩
          cases provider with
          | ok shortUrl id slashtag createdAt => rfl
          | fail e => simp [isInputValidationError_shortenError e]

/-- C7, counterexample: the state reached by the mount-time probe
    failing and the user typing a valid URL has the badge reading
    `error` and is not submitting, yet pressing Enter issues a shorten
    submission (`handleKeyPress` only checks `isLoading`).  This refutes
    the claim that submission is blocked on every path while the badge
    reads `error`. -/
theorem c7_counterexample :
    Client.Reachable ⟨"https://example.com", "", false, Client.ApiStatus.error⟩
    ∧ Client.enterKeySubmits
        ⟨"https://example.com", "", false, Client.ApiStatus.error⟩ "Enter" = true
    ∧ (⟨"https://example.com", "", false, Client.ApiStatus.error⟩ :
        Client.ViewState).apiStatus = Client.ApiStatus.error
    ∧ (⟨"https://example.com", "", false, Client.ApiStatus.error⟩ :
        Client.ViewState).isLoading = false := by
  refine ⟨?_, by decide, rfl, rfl⟩
  have h1 : Client.Step Client.init ⟨"", "", false, Client.ApiStatus.error⟩ :=
    Client.Step.probeErr Client.init
  have h2 : Client.Step ⟨"", "", false, Client.ApiStatus.error⟩
      ⟨"https://example.com", "", false, Client.ApiStatus.error⟩ :=
    Client.Step.typeUrl ⟨"", "", false, Client.ApiStatus.error⟩ "https://example.com" rfl
  exact Relation.ReflTransGen.tail (Relation.ReflTransGen.single h1) h2

/-- C7, amended: the button path is blocked while submitting or while
    the badge reads `error`, but the Enter-keypress path is blocked only
    while submitting — it can issue a submission while the badge reads
    `error`. -/
theorem c7_amended_submission_guard :
    ∀ (s : Client.ViewState) (key : String),
      (Client.clickSubmits s = true →
        s.isLoading = false ∧ s.apiStatus ≠ Client.ApiStatus.error)
      ∧ (Client.enterKeySubmits s key = true → s.isLoading = false) := by
  intro s key
  constructor
  · intro h
    simp only [Client.clickSubmits, Client.buttonDisabled, Bool.and_eq_true,
      Bool.not_eq_true', Bool.or_eq_false_iff, beq_eq_false_iff_ne] at h
    exact ⟨h.1.1, h.1.2⟩
  · intro h
    simp only [Client.enterKeySubmits, Bool.and_eq_true, Bool.not_eq_true'] at h
    exact h.1.2

/-- Witness for C7 (amended) at a concrete submitting-capable state. -/
theorem c7_witness :
    ((⟨"https://example.com", "", false, Client.ApiStatus.connected⟩ :
        Client.ViewState).isLoading = false
      ∧ (⟨"https://example.com", "", false, Client.ApiStatus.connected⟩ :
          Client.ViewState).apiStatus ≠ Client.ApiStatus.error)
    ∧ (⟨"https://example.com", "", false, Client.ApiStatus.connected⟩ :
        Client.ViewState).isLoading = false :=
  ⟨(c7_amended_submission_guard
      ⟨"https://example.com", "", false, Client.ApiStatus.connected⟩ "Enter").1 (by decide),
   (c7_amended_submission_guard
      ⟨"https://example.com", "", false, Client.ApiStatus.connected⟩ "Enter").2 (by decide)⟩

/-- C8, counterexample: an entry's id is `Date.now()`, so two distinct
    entries created in the same millisecond carry the same id, and both
    can sit in the history store together.  This refutes the claim that
    ids are unique per entry regardless of how closely in time the
    entries were created. -/
theorem c8_counterexample :
    Client.mkHistoryEntry 1700000000000 "https://a.example" "https://rebrand.ly/aaa"
        none "2023-11-14T22:13:20.000Z" "r1"
      ≠ Client.mkHistoryEntry 1700000000000 "https://b.example" "https://rebrand.ly/bbb"
        none "2023-11-14T22:13:20.000Z" "r2"
    ∧ (Client.mkHistoryEntry 1700000000000 "https://a.example" "https://rebrand.ly/aaa"
        none "2023-11-14T22:13:20.000Z" "r1").id
      = (Client.mkHistoryEntry 1700000000000 "https://b.example" "https://rebrand.ly/bbb"
        none "2023-11-14T22:13:20.000Z" "r2").id
    ∧ Client.recordAll
        [Client.mkHistoryEntry 1700000000000 "https://a.example" "https://rebrand.ly/aaa"
          none "2023-11-14T22:13:20.000Z" "r1",
         Client.mkHistoryEntry 1700000000000 "https://b.example" "https://rebrand.ly/bbb"
          none "2023-11-14T22:13:20.000Z" "r2"] []
      = [Client.mkHistoryEntry 1700000000000 "https://b.example" "https://rebrand.ly/bbb"
          none "2023-11-14T22:13:20.000Z" "r2",
         Client.mkHistoryEntry 1700000000000 "https://a.example" "https://rebrand.ly/aaa"
          none "2023-11-14T22:13:20.000Z" "r1"] := by
  refine ⟨by decide, rfl, rfl⟩

/-- C8, amended: an entry's id is exactly its creation timestamp in
    milliseconds, so entries created at distinct millisecond timestamps
    have distinct ids (while entries created within the same millisecond
    share one). -/
theorem c8_amended_ids :
    ∀ (t1 t2 : Nat) (u1 s1 d1 i1 u2 s2 d2 i2 : String) (g1 g2 : Option String),
      (Client.mkHistoryEntry t1 u1 s1 g1 d1 i1).id = t1
      ∧ (t1 ≠ t2 →
          (Client.mkHistoryEntry t1 u1 s1 g1 d1 i1).id
            ≠ (Client.mkHistoryEntry t2 u2 s2 g2 d2 i2).id) := by
  intro t1 t2 u1 s1 d1 i1 u2 s2 d2 i2 g1 g2
  exact ⟨rfl, fun h => h⟩

/-- Witness for C8 (amended) at concrete distinct timestamps. -/
theorem c8_witness :
    (Client.mkHistoryEntry 1000 "https://a.example" "https://rebrand.ly/aaa"
        none "t" "r1").id = 1000
    ∧ (Client.mkHistoryEntry 1000 "https://a.example" "https://rebrand.ly/aaa"
        none "t" "r1").id
      ≠ (Client.mkHistoryEntry 1001 "https://b.example" "https://rebrand.ly/bbb"
        none "t" "r2").id :=
  ⟨(c8_amended_ids 1000 1001 "https://a.example" "https://rebrand.ly/aaa" "t" "r1"
      "https://b.example" "https://rebrand.ly/bbb" "t" "r2" none none).1,
   (c8_amended_ids 1000 1001 "https://a.example" "https://rebrand.ly/aaa" "t" "r1"
      "https://b.example" "https://rebrand.ly/bbb" "t" "r2" none none).2 (by decide)⟩

/-- C9: every failing credential probe returns `success:false`, with
    code `INVALID_API_KEY` exactly when the provider answered with HTTP
    status 403 and `TEST_FAILED` for every other failure; the raw
    failure is attached only in the `details` field. -/
theorem c9_test_error_mapping :
    ∀ e : Api.ProviderFailure,
      (Api.testErrorResponse e).success = false
      ∧ (Api.testErrorResponse e).status = 500
      ∧ ((Api.testErrorResponse e).code = "INVALID_API_KEY"
          ↔ Api.failureStatus e = some 403)
      ∧ ((Api.testErrorResponse e).code = "TEST_FAILED"
          ↔ ¬ Api.failureStatus e = some 403)
      ∧ (Api.testErrorResponse e).details = e := by
  intro e
  have hs : ("TEST_FAILED" : String) ≠ "INVALID_API_KEY" := by decide
  refine ⟨rfl, rfl, ?_, ?_, rfl⟩ <;>
    by_cases h : Api.failureStatus e = some 403 <;>
      simp [Api.testErrorResponse, h, hs, hs.symm]

/-- C10: the shorten handler validates and forwards the trimmed custom
    slug — a slug whose trimmed content is valid is never rejected with
    `INVALID_SLUG`; a whitespace-only slug behaves exactly like an
    absent one; and whenever the provider is contacted the forwarded
    slashtag is the trimmed slug, or absent when the trim is empty. -/
theorem c10_slug_trimming :
    ∀ (u cs : String) (provider : Api.ProviderOutcome),
      (Api.isValidSlug (jsTrim cs) = true →
        Api.codeOf (Api.shortenHandler ⟨some u, some cs⟩ provider).response
          ≠ some "INVALID_SLUG")
      ∧ (jsTrim cs = "" →
          Api.shortenHandler ⟨some u, some cs⟩ provider
            = Api.shortenHandler ⟨some u, none⟩ provider)
      ∧ (∀ r : Api.RebrandlyData,
          (Api.shortenHandler ⟨some u, some cs⟩ provider).sentRequest = some r →
          r.slashtag = (if jsTrim cs = "" then none else some (jsTrim cs))) := by
  intro u cs provider
  refine ⟨?_, ?_, ?_⟩
  · intro hvalid
    have hrej : Api.slugRejected (some cs) = false := by
      by_cases h : cs = "" <;> simp [Api.slugRejected, h, hvalid]
    simp only [Api.shortenHandler]
    by_cases h1 : (u = "" ∨ jsTrim u = "")
    · rw [if_pos h1]; decide
    · rw [if_neg h1]
      by_cases h2 : (!Api.isValidUrl (jsTrim u)) = true
      · rw [if_pos h2]; decide
      · rw [if_neg h2, if_neg (by simp [hrej])]
        cases provider with
        | ok shortUrl id slashtag createdAt => simp [Api.codeOf]
        | fail e =>
          rcases shortenErrorResponse_code_cases e with h | h | h | h | h <;>
            simp [Api.codeOf, h]
  · intro hcs
    have hrej : Api.slugRejected (some cs) = false := by
      by_cases h : cs = "" <;> simp [Api.slugRejected, h, hcs, Api.isValidSlug]
    have hfwd : Api.slugForwarded (some cs) = none := by
      by_cases h : cs = "" <;> simp [Api.slugForwarded, h, hcs]
    simp only [Api.shortenHandler, hrej, hfwd]
    simp [Api.slugRejected, Api.slugForwarded]
  · intro r hr
    simp only [Api.shortenHandler] at hr
    by_cases h1 : (u = "" ∨ jsTrim u = "")
    · rw [if_pos h1] at hr; exact absurd hr (by simp)
    · rw [if_neg h1] at hr
      by_cases h2 : (!Api.isValidUrl (jsTrim u)) = true
      · rw [if_pos h2] at hr; exact absurd hr (by simp)
      · rw [if_neg h2] at hr
        by_cases h3 : Api.slugRejected (some cs) = true
        · rw [if_pos h3] at hr; exact absurd hr (by simp)
        · rw [if_neg h3] at hr
          have hinj := Option.some.inj hr
          subst hinj
          exact slugForwarded_eq cs

/-- Witness for C10 at a concrete padded slug and a whitespace-only
    slug. -/
theorem c10_witness :
    Api.codeOf (Api.shortenHandler ⟨some "https://example.com", some " my-slug "⟩
        (.fail .timeout)).response ≠ some "INVALID_SLUG"
    ∧ Api.shortenHandler ⟨some "https://example.com", some "   "⟩ (.fail .timeout)
        = Api.shortenHandler ⟨some "https://example.com", none⟩ (.fail .timeout)
    ∧ (⟨"https://example.com", some "my-slug"⟩ : Api.RebrandlyData).slashtag
        = (if jsTrim " my-slug " = "" then none else some (jsTrim " my-slug ")) :=
  ⟨(c10_slug_trimming "https://example.com" " my-slug " (.fail .timeout)).1 (by decide),
   (c10_slug_trimming "https://example.com" "   " (.fail .timeout)).2.1 (by decide),
   (c10_slug_trimming "https://example.com" " my-slug " (.fail .timeout)).2.2
      ⟨"https://example.com", some "my-slug"⟩ (by decide)⟩
